import Mathlib

/-!
Shallow embedding of the data-access layer of a small CRUD API service
(FastAPI + SQLAlchemy + Redis).  The route handlers live in
app/routers/class_.py and are translated here one by one; the cache
primitives (app/core/redis.py) and the scoped-session commit/rollback
semantics (app/core/db/session.py) are not part of the provided sources
and are modelled from the specification where marked.

Timestamps are modelled as natural numbers.  Nondeterminism of the
environment (when a database statement raises) is made explicit through
a `WriteStep` parameter; wall-clock time is passed explicitly as `now`.
-/

/-- Row of the `Class` table: identifier, name, owner reference, creation
timestamp (cf. the columns used by the handlers in class_.py). -/
structure ClassRow where
  class_id : String
  class_name : String
  teacher_id : String
  created_at : Nat
deriving DecidableEq, Repr

/-- Row of the `ClassNotice` table: integer identifier, parent class
reference, free-text message, creation/update timestamps. -/
structure ClassNoticeRow where
  id : Nat
  class_id : String
  message : String
  created_at : Nat
  updated_at : Nat
deriving DecidableEq, Repr

/-- The committed database state: the two tables used by class_.py. -/
structure DB where
  classes : List ClassRow
  notices : List ClassNoticeRow
deriving DecidableEq, Repr

/-- Response schema ClassResp (classId, className, teacherId, createdAt). -/
structure ClassResp where
  classId : String
  className : String
  teacherId : String
  createdAt : Nat
deriving DecidableEq, Repr

/-- Response schema ClassNoticeResp (id, classId, message, createdAt,
updatedAt). -/
structure ClassNoticeResp where
  id : Nat
  classId : String
  message : String
  createdAt : Nat
  updatedAt : Nat
deriving DecidableEq, Repr

/-- The error classes raised by the handlers (app/core/errors/error.py,
named after the exception classes used in class_.py). -/
inductive ApiError where
  | classCreationFailed
  | classNotFound
  | classNoticeCreationFailed
  | classNoticeNotFound
  | classNoticeUpdateFailed
  | classNoticeDeleteFailed
deriving DecidableEq, Repr

/-- Values the handlers store in the cache: Python None, a single Class
row (scalar result of read_class), or a list of Class rows (result of
read_class_list). -/
inductive PyVal where
  | pyNone
  | pyClass (c : ClassRow)
  | pyClassList (l : List ClassRow)
deriving DecidableEq, Repr

/-- Python truthiness of a cached value: None is falsy, an object is
truthy, a list is truthy iff nonempty.  read_class uses this as its
cache-hit test. -/
def PyVal.truthy : PyVal → Bool
  | .pyNone => false
  | .pyClass _ => true
  | .pyClassList l => !l.isEmpty

/-- Truthiness of the result of a cache get: an absent key yields Python
None, hence falsy. -/
def pyTruthyOpt : Option PyVal → Bool
  | none => false
  | some v => v.truthy

/-- One cache entry: stored value plus absolute expiry instant. -/
structure CacheEntry where
  value : PyVal
  expiry : Nat
deriving DecidableEq, Repr

/-- The cache store, an association list from string keys to entries. -/
abbrev Cache := List (String × CacheEntry)

/-- Modelled from the spec: key_builder of app/core/redis.py is absent
from the sources.  Per the spec, build_key derives a deterministic
string from the operation name and its ordered arguments; identical
operation and arguments give identical keys. -/
def keyBuilder (op : String) (args : List String) : String :=
  args.foldl (fun acc a => acc ++ "." ++ a) op

/-- Modelled from the spec: redis_cache.set of app/core/redis.py is
absent from the sources.  Per the spec, set stores the value with expiry
now + ttl and overwrites any existing entry at that key. -/
def cacheSet (c : Cache) (key : String) (v : PyVal) (ttl now : Nat) : Cache :=
  (key, ⟨v, now + ttl⟩) :: c.filter (fun p => p.1 != key)

/-- Modelled from the spec: redis_cache.get of app/core/redis.py is
absent from the sources.  Per the spec, get returns the cached value if
present and not expired, and signals absence otherwise; an entry present
past its expiry is treated as absent. -/
def cacheGet (c : Cache) (key : String) (now : Nat) : Option PyVal :=
  match List.lookup key c with
  | some e => if now < e.expiry then some e.value else none
  | none => none

/-- Modelled from the spec: redis_cache.exists is true iff a non-expired
entry is present at the key. -/
def cacheExists (c : Cache) (key : String) (now : Nat) : Bool :=
  (cacheGet c key now).isSome

/-- Cache key used by read_class: key_builder("read_class", class_id). -/
def readClassKey (classId : String) : String :=
  keyBuilder "read_class" [classId]

/-- Cache key used by read_class_list: key_builder("read_class_list"). -/
def readClassListKey : String :=
  keyBuilder "read_class_list" []

/-- Environment choice for one write endpoint invocation: the execute
statement raises, the commit raises, or both succeed. -/
inductive WriteStep where
  | execFails
  | commitFails
  | ok
deriving DecidableEq, Repr

/-- The try/execute/commit/except/rollback block shared by the write
endpoints of class_.py.  The statement produces the in-transaction state
pending; commit publishes it; any raise triggers rollback, leaving the
committed store unchanged (session commit/rollback semantics modelled
from spec section 4.1).  Returns the store visible afterwards and
whether the block completed without raising. -/
def writeTxn (db pending : DB) (step : WriteStep) : DB × Bool :=
  match step with
  | .execFails => (db, false)
  | .commitFails => (db, false)
  | .ok => (pending, true)

/-- Response construction for a Class row. -/
def classRespOf (c : ClassRow) : ClassResp :=
  ⟨c.class_id, c.class_name, c.teacher_id, c.created_at⟩

/-- Response construction for a ClassNotice row. -/
def noticeRespOf (r : ClassNoticeRow) : ClassNoticeResp :=
  ⟨r.id, r.class_id, r.message, r.created_at, r.updated_at⟩

/-- Embedding of POST "" create_class: insert a new Class row (the uuid
class_id and the db-generated created_at are parameters), commit; on any
raise roll back and raise ClassCreationFailed. -/
def create_class (db : DB) (classId className teacherId : String) (now : Nat)
    (step : WriteStep) : DB × Except ApiError ClassResp :=
  let row : ClassRow := ⟨classId, className, teacherId, now⟩
  let pending : DB := ⟨db.classes ++ [row], db.notices⟩
  match writeTxn db pending step with
  | (db1, true) => (db1, .ok (classRespOf row))
  | (db1, false) => (db1, .error .classCreationFailed)

/-- Embedding of POST "/notice/{class_id}" create_class_notice: insert a
new ClassNotice row (autoincrement id and timestamps are parameters),
commit; on any raise roll back and raise ClassNoticeCreationFailed. -/
def create_class_notice (db : DB) (classId message : String) (newId now : Nat)
    (step : WriteStep) : DB × Except ApiError ClassNoticeResp :=
  let row : ClassNoticeRow := ⟨newId, classId, message, now, now⟩
  let pending : DB := ⟨db.classes, db.notices ++ [row]⟩
  match writeTxn db pending step with
  | (db1, true) => (db1, .ok (noticeRespOf row))
  | (db1, false) => (db1, .error .classNoticeCreationFailed)

/-- WHERE predicate of update_class_notice and delete_class_notice:
ClassNotice.id == notice_id AND ClassNotice.class_id == class_id. -/
def noticeMatches (noticeId : Nat) (classId : String) (r : ClassNoticeRow) : Bool :=
  r.id == noticeId && r.class_id == classId

/-- Embedding of PUT "/notice/{class_id}/{notice_id}" update_class_notice:
UPDATE ... RETURNING, scalar() takes the first returned row (None when the
predicate matched no row), commit; on a raise roll back and raise
ClassNoticeUpdateFailed; after a successful commit, a None result raises
ClassNoticeNotFound. -/
def update_class_notice (db : DB) (classId : String) (noticeId : Nat)
    (message : String) (step : WriteStep) : DB × Except ApiError ClassNoticeResp :=
  let pending : DB :=
    ⟨db.classes,
      db.notices.map (fun r =>
        if noticeMatches noticeId classId r then ⟨r.id, r.class_id, message, r.created_at, r.updated_at⟩ else r)⟩
  let returned : Option ClassNoticeRow :=
    ((db.notices.filter (noticeMatches noticeId classId)).head?).map
      (fun r => ⟨r.id, r.class_id, message, r.created_at, r.updated_at⟩)
  match writeTxn db pending step with
  | (db1, false) => (db1, .error .classNoticeUpdateFailed)
  | (db1, true) =>
    match returned with
    | none => (db1, .error .classNoticeNotFound)
    | some r => (db1, .ok (noticeRespOf r))

/-- Embedding of DELETE "/notice/{class_id}/{notice_id}"
delete_class_notice: DELETE ... RETURNING, scalar() takes the first
deleted row (None when the predicate matched no row), commit; on a raise
roll back and raise ClassNoticeDeleteFailed; after a successful commit, a
None result raises ClassNoticeNotFound. -/
def delete_class_notice (db : DB) (classId : String) (noticeId : Nat)
    (step : WriteStep) : DB × Except ApiError ClassNoticeResp :=
  let pending : DB :=
    ⟨db.classes, db.notices.filter (fun r => !noticeMatches noticeId classId r)⟩
  let returned : Option ClassNoticeRow :=
    (db.notices.filter (noticeMatches noticeId classId)).head?
  match writeTxn db pending step with
  | (db1, false) => (db1, .error .classNoticeDeleteFailed)
  | (db1, true) =>
    match returned with
    | none => (db1, .error .classNoticeNotFound)
    | some r => (db1, .ok (noticeRespOf r))

/-- Outcome of a read endpoint: success envelope, raised API error, or a
Python-level type error (attribute access on an unexpectedly shaped cached
value; unreachable through the modelled flows). -/
inductive ReadOutcome (α : Type) where
  | ok (a : α)
  | err (e : ApiError)
  | typeError
deriving DecidableEq, Repr

/-- Embedding of GET "/{class_id}" read_class.  The cache-hit test is the
truthiness of redis_cache.get(key): an absent key, a cached None, or a
cached empty list count as a miss.  On a miss the handler runs
SELECT ... WHERE class_id = ..., scalar() takes the first row or None,
then unconditionally writes that result to the cache with ttl = 60, and
only afterwards raises ClassNotFoundException when the result is None.
Returns (cache afterwards, outcome, number of database queries run). -/
def read_class (db : DB) (cache : Cache) (classId : String) (now : Nat) :
    Cache × ReadOutcome ClassResp × Nat :=
  match cacheGet cache (readClassKey classId) now with
  | some (.pyClass c) => (cache, .ok (classRespOf c), 0)
  | some (.pyClassList (_ :: _)) => (cache, .typeError, 0)
  | _ =>
    let result := (db.classes.filter (fun c => c.class_id == classId)).head?
    let cache1 := cacheSet cache (readClassKey classId)
      (match result with | none => .pyNone | some c => .pyClass c) 60 now
    match result with
    | none => (cache1, .err .classNotFound, 1)
    | some c => (cache1, .ok (classRespOf c), 1)

/-- Embedding of GET "/list" read_class_list.  The cache-hit test is
redis_cache.exists(key), i.e. presence of a non-expired entry regardless
of truthiness.  On a hit the cached value is returned (a cached None
would flow into the result-is-None check and raise
ClassNotFoundException); on a miss the handler runs SELECT all Class
rows, which always yields a list, caches it (the source guards the set
with a result-is-not-None check that a list always passes) with
ttl = 60, and returns it.  Returns (cache afterwards, outcome, number of
database queries run). -/
def read_class_list (db : DB) (cache : Cache) (now : Nat) :
    Cache × ReadOutcome (List ClassResp) × Nat :=
  match cacheGet cache readClassListKey now with
  | some (.pyClassList l) => (cache, .ok (l.map classRespOf), 0)
  | some .pyNone => (cache, .err .classNotFound, 0)
  | some (.pyClass _) => (cache, .typeError, 0)
  | none =>
    let result := db.classes
    let cache1 := cacheSet cache readClassListKey (.pyClassList result) 60 now
    (cache1, .ok (result.map classRespOf), 1)

/-- Descending order on creation timestamps, the ORDER BY relation of
read_class_notice_list (created_at.desc()). -/
def createdDesc (a b : ClassNoticeRow) : Prop :=
  b.created_at ≤ a.created_at

instance : DecidableRel createdDesc :=
  fun a b => inferInstanceAs (Decidable (b.created_at ≤ a.created_at))

instance : IsTotal ClassNoticeRow createdDesc :=
  ⟨fun a b => Nat.le_total b.created_at a.created_at⟩

instance : IsTrans ClassNoticeRow createdDesc :=
  ⟨fun _ _ _ hab hbc => Nat.le_trans hbc hab⟩

/-- Embedding of GET "/notice/{class_id}/list" read_class_notice_list:
SELECT ClassNotice rows WHERE class_id = ... ORDER BY created_at DESC;
an empty result list is falsy and raises ClassNoticeNotFound. -/
def read_class_notice_list (db : DB) (classId : String) :
    ReadOutcome (List ClassNoticeResp) :=
  let rows := List.insertionSort createdDesc
    (db.notices.filter (fun n => n.class_id == classId))
  if rows.isEmpty then .err .classNoticeNotFound
  else .ok (rows.map noticeRespOf)

/-- Overwriting lookup: after a set, the entry at the key is exactly the
one just written, whatever was there before. -/
theorem lookup_cacheSet_self (c : Cache) (k : String) (v : PyVal) (ttl now : Nat) :
    List.lookup k (cacheSet c k v ttl now) = some ⟨v, now + ttl⟩ := by
  simp [cacheSet, List.lookup]

/-- Reading back a freshly set key yields the value until its expiry and
absence afterwards. -/
theorem cacheGet_cacheSet_self (c : Cache) (k : String) (v : PyVal) (ttl now n : Nat) :
    cacheGet (cacheSet c k v ttl now) k n = if n < now + ttl then some v else none := by
  simp [cacheGet, lookup_cacheSet_self]

/-- A successful get exposes an underlying non-expired entry. -/
theorem cacheGet_isSome (c : Cache) (k : String) (now : Nat) (v : PyVal)
    (h : cacheGet c k now = some v) :
    ∃ e : CacheEntry, List.lookup k c = some e ∧ e.value = v ∧ now < e.expiry := by
  cases hl : List.lookup k c with
  | none => simp [cacheGet, hl] at h
  | some e =>
    simp only [cacheGet, hl] at h
    split at h
    · exact ⟨e, rfl, Option.some_inj.mp h, by assumption⟩
    · exact absurd h (by simp)

/-- When the cached value at the read_class key is falsy (absent, None,
or an empty list), read_class takes the database path: it queries, writes
the result to the cache unconditionally, and reports one query. -/
theorem read_class_of_falsy (db : DB) (cache : Cache) (classId : String) (now : Nat)
    (hmiss : pyTruthyOpt (cacheGet cache (readClassKey classId) now) = false) :
    read_class db cache classId now =
      (cacheSet cache (readClassKey classId)
        (match (db.classes.filter (fun c => c.class_id == classId)).head? with
          | none => .pyNone | some c => .pyClass c) 60 now,
       (match (db.classes.filter (fun c => c.class_id == classId)).head? with
          | none => .err .classNotFound | some c => .ok (classRespOf c)),
       1) := by
  cases hg : cacheGet cache (readClassKey classId) now with
  | none =>
    simp only [read_class, hg]
    cases (db.classes.filter (fun c => c.class_id == classId)).head? <;> rfl
  | some v =>
    rw [hg] at hmiss
    cases v with
    | pyNone =>
      simp only [read_class, hg]
      cases (db.classes.filter (fun c => c.class_id == classId)).head? <;> rfl
    | pyClass c => simp [pyTruthyOpt, PyVal.truthy] at hmiss
    | pyClassList l =>
      cases l with
      | nil =>
        simp only [read_class, hg]
        cases (db.classes.filter (fun c => c.class_id == classId)).head? <;> rfl
      | cons x xs => simp [pyTruthyOpt, PyVal.truthy] at hmiss

/-- When the cached value at the read_class key is truthy, read_class
leaves the cache unchanged and runs no database query. -/
theorem read_class_of_truthy (db : DB) (cache : Cache) (classId : String) (now : Nat)
    (h : pyTruthyOpt (cacheGet cache (readClassKey classId) now) = true) :
    (read_class db cache classId now).1 = cache ∧ (read_class db cache classId now).2.2 = 0 := by
  cases hg : cacheGet cache (readClassKey classId) now with
  | none => rw [hg] at h; simp [pyTruthyOpt] at h
  | some v =>
    cases v with
    | pyNone => rw [hg] at h; simp [pyTruthyOpt, PyVal.truthy] at h
    | pyClass c => simp [read_class, hg]
    | pyClassList l =>
      cases l with
      | nil => rw [hg] at h; simp [pyTruthyOpt, PyVal.truthy] at h
      | cons x xs => simp [read_class, hg]

/-- One read_class invocation runs at most one database query. -/
theorem read_class_queries_le_one (db : DB) (cache : Cache) (classId : String) (now : Nat) :
    (read_class db cache classId now).2.2 ≤ 1 := by
  by_cases h : pyTruthyOpt (cacheGet cache (readClassKey classId) now) = true
  · rw [(read_class_of_truthy db cache classId now h).2]; omega
  · rw [read_class_of_falsy db cache classId now (by simpa using h)]

/-- One read_class_list invocation runs at most one database query. -/
theorem read_class_list_queries_le_one (db : DB) (cache : Cache) (now : Nat) :
    (read_class_list db cache now).2.2 ≤ 1 := by
  unfold read_class_list
  cases hg : cacheGet cache readClassListKey now with
  | none => simp
  | some v => cases v <;> simp

/-- Claim C1, counterexample: running read_class on a class_id matching
zero rows against an empty cache does NOT leave the cache unchanged: the
null result is written to the cache (set is called unconditionally in
class_.py line 116). -/
theorem c1_counterexample :
    (read_class ⟨[], []⟩ [] "c" 0).2.1 = .err .classNotFound ∧
    (read_class ⟨[], []⟩ [] "c" 0).1 ≠ ([] : Cache) := by
  constructor
  · rfl
  · decide

/-- Claim C1, amended: when read_class misses the cache and the database
returns no row, the null result IS written to the cache (as a None entry
with the usual 60-second expiry) and ClassNotFoundException is raised;
but because the cache-hit test is the truthiness of the fetched value, a
cached None never counts as a hit, so a subsequent identical read at any
time still queries the database. -/
theorem c1_null_result_recache_behavior (db : DB) (cache : Cache) (classId : String)
    (now n2 : Nat)
    (habs : (db.classes.filter (fun c => c.class_id == classId)).head? = none)
    (hmiss : pyTruthyOpt (cacheGet cache (readClassKey classId) now) = false) :
    (read_class db cache classId now).2.2 = 1 ∧
    (read_class db cache classId now).2.1 = .err .classNotFound ∧
    List.lookup (readClassKey classId) (read_class db cache classId now).1 =
      some ⟨.pyNone, now + 60⟩ ∧
    (read_class db (read_class db cache classId now).1 classId n2).2.2 = 1 := by
  rw [read_class_of_falsy db cache classId now hmiss, habs]
  refine ⟨rfl, rfl, lookup_cacheSet_self _ _ _ _ _, ?_⟩
  have h2 : pyTruthyOpt (cacheGet
      (cacheSet cache (readClassKey classId) .pyNone 60 now) (readClassKey classId) n2) = false := by
    rw [cacheGet_cacheSet_self]
    by_cases hlt : n2 < now + 60
    · rw [if_pos hlt]; rfl
    · rw [if_neg hlt]; rfl
  rw [read_class_of_falsy db _ classId n2 h2, habs]

/-- Claim C1, witness: the amended statement at a concrete input (empty
database, empty cache, a second read 30 seconds later). -/
theorem c1_witness :
    (read_class ⟨[], []⟩ [] "c" 0).2.2 = 1 ∧
    (read_class ⟨[], []⟩ [] "c" 0).2.1 = .err .classNotFound ∧
    List.lookup (readClassKey "c") (read_class ⟨[], []⟩ [] "c" 0).1 =
      some ⟨.pyNone, 0 + 60⟩ ∧
    (read_class ⟨[], []⟩ (read_class ⟨[], []⟩ [] "c" 0).1 "c" 30).2.2 = 1 :=
  c1_null_result_recache_behavior ⟨[], []⟩ [] "c" 0 30 (by decide) (by decide)

/-- Claim C2: for every write endpoint (create_class, create_class_notice,
update_class_notice, delete_class_notice), if the database operation
raises during execution (statement or commit), the unit of work is rolled
back — the committed store is left exactly as it was, so no partial state
is observable — and the endpoint-specific narrow Failed error is raised. -/
theorem c2_write_failure_rollback (db : DB) (classId className teacherId message : String)
    (noticeId newId now : Nat) (step : WriteStep) (h : step ≠ .ok) :
    create_class db classId className teacherId now step = (db, .error .classCreationFailed) ∧
    create_class_notice db classId message newId now step = (db, .error .classNoticeCreationFailed) ∧
    update_class_notice db classId noticeId message step = (db, .error .classNoticeUpdateFailed) ∧
    delete_class_notice db classId noticeId step = (db, .error .classNoticeDeleteFailed) := by
  cases step with
  | ok => exact absurd rfl h
  | execFails => exact ⟨rfl, rfl, rfl, rfl⟩
  | commitFails => exact ⟨rfl, rfl, rfl, rfl⟩

/-- Claim C2, witness: a failing execute against the empty store rolls
back every write endpoint at a concrete input. -/
theorem c2_witness :
    create_class ⟨[], []⟩ "c" "n" "t" 0 .execFails = (⟨[], []⟩, .error .classCreationFailed) ∧
    create_class_notice ⟨[], []⟩ "c" "m" 1 0 .execFails =
      (⟨[], []⟩, .error .classNoticeCreationFailed) ∧
    update_class_notice ⟨[], []⟩ "c" 1 "m" .execFails =
      (⟨[], []⟩, .error .classNoticeUpdateFailed) ∧
    delete_class_notice ⟨[], []⟩ "c" 1 .execFails =
      (⟨[], []⟩, .error .classNoticeDeleteFailed) :=
  c2_write_failure_rollback ⟨[], []⟩ "c" "n" "t" "m" 1 1 0 .execFails (by decide)

/-- Claim C3: when the (class_id, notice_id) predicate of
update_class_notice matches zero rows and nothing raises, the transaction
commits as a no-op — the store is returned unchanged — and the outcome is
ClassNoticeNotFound (raised after the commit), not the operation-failed
rollback error. -/
theorem c3_update_nonexistent_not_found (db : DB) (classId message : String) (noticeId : Nat)
    (h : ∀ r ∈ db.notices, ¬(r.id = noticeId ∧ r.class_id = classId)) :
    update_class_notice db classId noticeId message .ok = (db, .error .classNoticeNotFound) := by
  have hm : ∀ r ∈ db.notices, noticeMatches noticeId classId r = false := by
    intro r hr
    simpa [noticeMatches, not_and] using h r hr
  have hfil : db.notices.filter (noticeMatches noticeId classId) = [] :=
    List.filter_eq_nil_iff.mpr (by intro r hr; rw [hm r hr]; simp)
  have hmap : db.notices.map (fun r =>
      if noticeMatches noticeId classId r then
        ⟨r.id, r.class_id, message, r.created_at, r.updated_at⟩ else r) = db.notices := by
    conv_rhs => rw [← List.map_id db.notices]
    exact List.map_congr_left (fun r hr => by simp [hm r hr])
  simp only [update_class_notice, writeTxn, hfil, hmap]
  rfl

/-- Claim C3, witness: updating notice 1 of class "c" when the only
stored notice belongs to another class yields Not Found and leaves the
store untouched. -/
theorem c3_witness :
    update_class_notice ⟨[], [⟨7, "other", "m", 0, 0⟩]⟩ "c" 1 "new" .ok =
      (⟨[], [⟨7, "other", "m", 0, 0⟩]⟩, .error .classNoticeNotFound) :=
  c3_update_nonexistent_not_found ⟨[], [⟨7, "other", "m", 0, 0⟩]⟩ "c" "new" 1 (by decide)

/-- Claim C4: when exactly one stored notice matches (class_id,
notice_id), delete_class_notice succeeds and returns that record as
(id, classId, message, createdAt, updatedAt); repeating the same delete
on the resulting store yields ClassNoticeNotFound. -/
theorem c4_delete_then_redelete (db : DB) (classId : String) (noticeId : Nat)
    (r : ClassNoticeRow)
    (h : db.notices.filter (noticeMatches noticeId classId) = [r]) :
    (delete_class_notice db classId noticeId .ok).2 = .ok (noticeRespOf r) ∧
    (delete_class_notice (delete_class_notice db classId noticeId .ok).1 classId noticeId .ok).2
      = .error .classNoticeNotFound := by
  have h1 : delete_class_notice db classId noticeId .ok =
      (⟨db.classes, db.notices.filter (fun x => !noticeMatches noticeId classId x)⟩,
        .ok (noticeRespOf r)) := by
    simp only [delete_class_notice, writeTxn, h]
    rfl
  have h2 : (db.notices.filter (fun x => !noticeMatches noticeId classId x)).filter
      (noticeMatches noticeId classId) = [] := by
    rw [List.filter_filter]
    simp
  rw [h1]
  refine ⟨rfl, ?_⟩
  simp only [delete_class_notice, writeTxn, h2]
  rfl

/-- Claim C4, witness: deleting the only notice of class "c" returns its
data once, and deleting it again yields Not Found. -/
theorem c4_witness :
    (delete_class_notice ⟨[], [⟨1, "c", "m", 0, 0⟩]⟩ "c" 1 .ok).2 =
      .ok (noticeRespOf ⟨1, "c", "m", 0, 0⟩) ∧
    (delete_class_notice
      (delete_class_notice ⟨[], [⟨1, "c", "m", 0, 0⟩]⟩ "c" 1 .ok).1 "c" 1 .ok).2 =
      .error .classNoticeNotFound :=
  c4_delete_then_redelete ⟨[], [⟨1, "c", "m", 0, 0⟩]⟩ "c" 1 ⟨1, "c", "m", 0, 0⟩ (by decide)

/-- Claim C5, counterexample: two identical read_class calls at the same
instant (well within the TTL window) on a class_id matching zero rows
perform two database queries, not at most one — the cached None never
counts as a hit. -/
theorem c5_counterexample :
    (read_class ⟨[], []⟩ [] "c" 0).2.2 +
      (read_class ⟨[], []⟩ (read_class ⟨[], []⟩ [] "c" 0).1 "c" 0).2.2 = 2 := by
  decide

/-- Claim C5, amended: within a 60-second window, two identical
read_class calls perform at most one database query in total provided a
class with the requested id exists in the database (the existence
hypothesis scopes only over the read_class conjunct); two
read_class_list calls in the same window perform at most one database
query in total unconditionally — the exists-based hit test accepts a
cached empty list, so even an empty class table is served from cache on
the second call. -/
theorem c5_repeat_read_query_bound (db : DB) (cache : Cache) (classId : String)
    (now n2 : Nat) (hlt : n2 < now + 60) :
    (∀ cr : ClassRow, (db.classes.filter (fun c => c.class_id == classId)).head? = some cr →
      (read_class db cache classId now).2.2 +
        (read_class db (read_class db cache classId now).1 classId n2).2.2 ≤ 1) ∧
    (read_class_list db cache now).2.2 +
      (read_class_list db (read_class_list db cache now).1 n2).2.2 ≤ 1 := by
  constructor
  · intro cr hex
    by_cases h : pyTruthyOpt (cacheGet cache (readClassKey classId) now) = true
    · obtain ⟨hc, hq⟩ := read_class_of_truthy db cache classId now h
      rw [hq, hc]
      have := read_class_queries_le_one db cache classId n2
      omega
    · rw [read_class_of_falsy db cache classId now (by simpa using h), hex]
      have hg2 : cacheGet (cacheSet cache (readClassKey classId) (.pyClass cr) 60 now)
          (readClassKey classId) n2 = some (.pyClass cr) := by
        rw [cacheGet_cacheSet_self, if_pos hlt]
      simp [read_class, hg2]
  · cases hg : cacheGet cache readClassListKey now with
    | none =>
      have hg2 : cacheGet (cacheSet cache readClassListKey (.pyClassList db.classes) 60 now)
          readClassListKey n2 = some (.pyClassList db.classes) := by
        rw [cacheGet_cacheSet_self, if_pos hlt]
      simp [read_class_list, hg, hg2]
    | some v =>
      have h1 : (read_class_list db cache now).2.2 = 0 ∧
          (read_class_list db cache now).1 = cache := by
        cases v <;> simp [read_class_list, hg]
      rw [h1.1, h1.2]
      have := read_class_list_queries_le_one db cache n2
      omega

/-- Claim C5, witness: with one stored class, a read_class at time 0 and
a repeat at time 30 stay within one database query; and against an empty
class table — where no existence hypothesis could hold — two
read_class_list calls still stay within one database query. -/
theorem c5_witness :
    (read_class ⟨[⟨"c", "n", "t", 0⟩], []⟩ [] "c" 0).2.2 +
      (read_class ⟨[⟨"c", "n", "t", 0⟩], []⟩
        (read_class ⟨[⟨"c", "n", "t", 0⟩], []⟩ [] "c" 0).1 "c" 30).2.2 ≤ 1 ∧
    (read_class_list ⟨[], []⟩ [] 0).2.2 +
      (read_class_list ⟨[], []⟩
        (read_class_list ⟨[], []⟩ [] 0).1 30).2.2 ≤ 1 :=
  ⟨(c5_repeat_read_query_bound ⟨[⟨"c", "n", "t", 0⟩], []⟩ [] "c" 0 30 (by decide)).1
      ⟨"c", "n", "t", 0⟩ (by decide),
    (c5_repeat_read_query_bound ⟨[], []⟩ [] "c" 0 30 (by decide)).2⟩

/-- Claim C6: keyBuilder is a pure function, so identical operation and
arguments give identical keys, and for the identifier domain in use
(a single identifier argument under a fixed operation name) distinct
arguments give distinct keys. -/
theorem c6_key_builder_deterministic_injective (op a b : String) (hne : a ≠ b) :
    keyBuilder op [a] = keyBuilder op [a] ∧ keyBuilder op [a] ≠ keyBuilder op [b] := by
  refine ⟨rfl, fun h => hne ?_⟩
  simp only [keyBuilder, List.foldl_cons, List.foldl_nil] at h
  have h2 := congrArg String.data h
  simp [String.data_append] at h2
  exact String.ext h2

/-- Claim C6, witness: two distinct class identifiers produce distinct
read_class keys. -/
theorem c6_witness :
    keyBuilder "read_class" ["a"] = keyBuilder "read_class" ["a"] ∧
    keyBuilder "read_class" ["a"] ≠ keyBuilder "read_class" ["b"] :=
  c6_key_builder_deterministic_injective "read_class" "a" "b" (by decide)

/-- Claim C7: set followed by get returns the stored value while less
than ttl has elapsed and signals absence once ttl has elapsed, and set
overwrites whatever entry previously lived at the key (the stored entry
is exactly the new value with expiry now + ttl, for an arbitrary prior
cache). -/
theorem c7_cache_round_trip (c : Cache) (k : String) (v : PyVal) (ttl now n1 n2 : Nat)
    (h1 : n1 < now + ttl) (h2 : now + ttl ≤ n2) :
    List.lookup k (cacheSet c k v ttl now) = some ⟨v, now + ttl⟩ ∧
    cacheGet (cacheSet c k v ttl now) k n1 = some v ∧
    cacheGet (cacheSet c k v ttl now) k n2 = none := by
  refine ⟨lookup_cacheSet_self c k v ttl now, ?_, ?_⟩
  · rw [cacheGet_cacheSet_self, if_pos h1]
  · rw [cacheGet_cacheSet_self, if_neg (Nat.not_lt.mpr h2)]

/-- Claim C7, witness: overwriting an existing entry at "k" with ttl 10
set at time 0, read back at times 5 and 12. -/
theorem c7_witness :
    List.lookup "k" (cacheSet [("k", ⟨.pyNone, 99⟩)] "k" (.pyClassList []) 10 0) =
      some ⟨.pyClassList [], 0 + 10⟩ ∧
    cacheGet (cacheSet [("k", ⟨.pyNone, 99⟩)] "k" (.pyClassList []) 10 0) "k" 5 =
      some (.pyClassList []) ∧
    cacheGet (cacheSet [("k", ⟨.pyNone, 99⟩)] "k" (.pyClassList []) 10 0) "k" 12 = none :=
  c7_cache_round_trip [("k", ⟨.pyNone, 99⟩)] "k" (.pyClassList []) 10 0 5 12
    (by decide) (by decide)

/-- Claim C8: whenever read_class_notice_list succeeds, the returned
notice list is ordered by creation timestamp (descending, per the
created_at.desc() ORDER BY of the source). -/
theorem c8_notice_list_sorted_desc (db : DB) (classId : String)
    (l : List ClassNoticeResp) (h : read_class_notice_list db classId = .ok l) :
    l.Pairwise (fun a b => b.createdAt ≤ a.createdAt) := by
  unfold read_class_notice_list at h
  by_cases he : (List.insertionSort createdDesc
      (db.notices.filter (fun n => n.class_id == classId))).isEmpty
  · rw [if_pos he] at h; exact absurd h (by simp)
  · rw [if_neg he] at h
    injection h with h
    rw [← h]
    exact List.Pairwise.map _ (fun a b hab => hab)
      (List.sorted_insertionSort createdDesc _)

/-- Claim C8, witness: two notices stored in ascending creation order
come back in descending creation order. -/
theorem c8_witness :
    ([⟨2, "c", "b", 9, 9⟩, ⟨1, "c", "a", 5, 5⟩] : List ClassNoticeResp).Pairwise
      (fun a b => b.createdAt ≤ a.createdAt) :=
  c8_notice_list_sorted_desc ⟨[], [⟨1, "c", "a", 5, 5⟩, ⟨2, "c", "b", 9, 9⟩]⟩ "c" _ (by decide)

/-- Claim C9: read_class_list never yields the Not Found outcome: as long
as any entry at the read_class_list key was written by read_class_list
itself (it always stores a list, possibly empty), the result is never
ClassNotFoundException — the database path always produces a list and
caches it — and the resulting cache again holds only list values at that
key. -/
theorem c9_read_class_list_no_not_found (db : DB) (cache : Cache) (now : Nat)
    (hinv : ∀ e : CacheEntry, List.lookup readClassListKey cache = some e →
      ∃ l, e.value = PyVal.pyClassList l) :
    (read_class_list db cache now).2.1 ≠ .err .classNotFound ∧
    (∀ e : CacheEntry, List.lookup readClassListKey (read_class_list db cache now).1 = some e →
      ∃ l, e.value = PyVal.pyClassList l) := by
  cases hg : cacheGet cache readClassListKey now with
  | none =>
    constructor
    · simp [read_class_list, hg]
    · intro e he
      simp only [read_class_list, hg] at he
      rw [lookup_cacheSet_self] at he
      exact ⟨db.classes, by rw [← Option.some_inj.mp he]⟩
  | some v =>
    obtain ⟨e, hl, hv, _⟩ := cacheGet_isSome cache readClassListKey now v hg
    obtain ⟨l, hvl⟩ := hinv e hl
    rw [hv] at hvl
    subst hvl
    constructor
    · simp [read_class_list, hg]
    · have hc : (read_class_list db cache now).1 = cache := by
        simp [read_class_list, hg]
      rw [hc]
      exact hinv

/-- Claim C9, witness: an empty database and empty cache give a
successful (empty) listing rather than Not Found. -/
theorem c9_witness :
    (read_class_list ⟨[], []⟩ [] 0).2.1 ≠ .err .classNotFound ∧
    (∀ e : CacheEntry, List.lookup readClassListKey (read_class_list ⟨[], []⟩ [] 0).1 = some e →
      ∃ l, e.value = PyVal.pyClassList l) :=
  c9_read_class_list_no_not_found ⟨[], []⟩ [] 0 (fun _ he => Option.noConfusion he)

/-- Claim C10: when a class has zero notice rows, read_class_notice_list
raises ClassNoticeNotFound instead of returning a successful response
with an empty list — the empty result list is falsy and treated as
absence. -/
theorem c10_empty_notice_list_not_found (db : DB) (classId : String)
    (h : db.notices.filter (fun n => n.class_id == classId) = []) :
    read_class_notice_list db classId = .err .classNoticeNotFound := by
  simp [read_class_notice_list, h]

/-- Claim C10, witness: a store holding a class but no notices yields Not
Found for the notice listing of that class. -/
theorem c10_witness :
    read_class_notice_list ⟨[⟨"c", "n", "t", 0⟩], []⟩ "c" = .err .classNoticeNotFound :=
  c10_empty_notice_list_not_found ⟨[⟨"c", "n", "t", 0⟩], []⟩ "c" (by decide)
